import Mathlib

/-!
Verification of the soundcloud-mcp repository: a shallow embedding of the
query-parameter builder (`SoundCloudClient.search_tracks`), the request/error
mapping (`SoundCloudClient._send_soundcloud_request`), the formatting helpers
(`format_track_info`, `format_duration`), the token reader
(`get_access_token`) and the MCP tool adapter (`server.search_tracks`),
together with theorems settling the specification's claims about them.
-/

set_option maxRecDepth 4000

/-- A JSON-like value as manipulated by the Python code: `null`/`None`,
booleans, integers, strings, lists and objects (dicts, modelled as
association lists looked up on the first matching key). Floating point
values never occur in the properties under study and are not modelled. -/
inductive Json where
  | null : Json
  | bool : Bool → Json
  | num : Int → Json
  | str : String → Json
  | arr : List Json → Json
  | obj : List (String × Json) → Json

/-- Python truthiness (`bool(x)`) on the modelled JSON values: `None`,
`False`, `0`, `""`, `[]` and the empty dict are falsy. -/
def truthy : Json → Bool
  | .null => false
  | .bool b => b
  | .num n => n != 0
  | .str s => s != ""
  | .arr xs => !xs.isEmpty
  | .obj kvs => !kvs.isEmpty

mutual
/-- Python `repr` on the modelled values (string escaping inside reprs is not
reproduced; no claim depends on it). -/
def pyRepr : Json → String
  | .null => "None"
  | .bool true => "True"
  | .bool false => "False"
  | .num n => toString n
  | .str s => "'" ++ s ++ "'"
  | .arr xs => "[" ++ String.intercalate ", " (pyReprList xs) ++ "]"
  | .obj kvs => "\x7b" ++ String.intercalate ", " (pyReprPairs kvs) ++ "\x7d"

def pyReprList : List Json → List String
  | [] => []
  | x :: xs => pyRepr x :: pyReprList xs

def pyReprPairs : List (String × Json) → List String
  | [] => []
  | (k, v) :: kvs => ("'" ++ k ++ "': " ++ pyRepr v) :: pyReprPairs kvs
end

/-- Python `str(x)`: identity on strings, `repr` otherwise (as in CPython for
the modelled types). Used where the source interpolates values into
f-strings. -/
def pyStr : Json → String
  | .str s => s
  | v => pyRepr v

/-- Python `len(x)`: defined for lists, strings and dicts; `none` models the
`TypeError` raised on other values. -/
def py_len : Json → Option Int
  | .arr xs => some xs.length
  | .str s => some s.length
  | .obj kvs => some kvs.length
  | _ => none

/-- Python iteration `for x in v`: the elements of a list, the characters of
a string, the keys of a dict; `none` models the `TypeError` raised on
non-iterable values. -/
def py_iter : Json → Option (List Json)
  | .arr xs => some xs
  | .str s => some (s.toList.map fun c => Json.str c.toString)
  | .obj kvs => some (kvs.map fun kv => Json.str kv.1)
  | _ => none

/-- The BPM range dict passed to the client: `{"from": ..., "to": ...}`
(source: `bpm: Optional[Dict[str, int]]` in
`SoundCloudClient.search_tracks`). -/
structure BpmRange where
  «from» : Int
  «to» : Int
  deriving Repr, DecidableEq

/-- The duration range dict passed to the client: `{"from": ..., "to": ...}`
in seconds. -/
structure DurationRange where
  «from» : Int
  «to» : Int
  deriving Repr, DecidableEq

/-- The creation-date range dict passed to the client:
`{"from": ..., "to": ...}` as date strings. -/
structure CreatedAtRange where
  «from» : String
  «to» : String
  deriving Repr, DecidableEq

/-- The argument list of `SoundCloudClient.search_tracks`, with the source's
defaults (`None` everywhere, `limit=10`). -/
structure SearchRequest where
  query : Option String := none
  genres : Option (List String) := none
  tags : Option (List String) := none
  bpm : Option BpmRange := none
  duration : Option DurationRange := none
  created_at : Option CreatedAtRange := none
  limit : Int := 10
  deriving Repr, DecidableEq

/-- The query-parameter mapping built by `SoundCloudClient.search_tracks`
(src/mcp/soundcloud_client.py, lines 87-114), as the ordered association
list the Python dict is populated in: `q` if the query is not `None`,
`genres`/`tags` comma-joined if not `None`, each range flattened into
`<name>[from]`/`<name>[to]` if not `None`, then always `limit` and
`linked_partitioning = "1"`. -/
def search_tracks_params (req : SearchRequest) : List (String × Json) :=
  (match req.query with
    | some q => [("q", Json.str q)]
    | none => []) ++
  (match req.genres with
    | some gs => [("genres", Json.str (String.intercalate "," gs))]
    | none => []) ++
  (match req.tags with
    | some ts => [("tags", Json.str (String.intercalate "," ts))]
    | none => []) ++
  (match req.bpm with
    | some b => [("bpm[from]", Json.num b.«from»), ("bpm[to]", Json.num b.«to»)]
    | none => []) ++
  (match req.duration with
    | some d => [("duration[from]", Json.num d.«from»), ("duration[to]", Json.num d.«to»)]
    | none => []) ++
  (match req.created_at with
    | some c => [("created_at[from]", Json.str c.«from»), ("created_at[to]", Json.str c.«to»)]
    | none => []) ++
  [("limit", Json.num req.limit), ("linked_partitioning", Json.str "1")]

/-- Outcome of the underlying HTTP exchange, as distinguished by the
`try/except` ladder in `SoundCloudClient._send_soundcloud_request`
(src/mcp/soundcloud_client.py, lines 42-60): a decoded 2xx JSON body, an
`httpx.HTTPStatusError` carrying the status code, an
`httpx.TimeoutException`, or any other exception carrying its `str(e)`
message (transport or decoding failure). -/
inductive HttpOutcome where
  | success : Json → HttpOutcome
  | httpStatusError : Nat → HttpOutcome
  | timeout : HttpOutcome
  | otherError : String → HttpOutcome

/-- `SoundCloudClient._send_soundcloud_request`, given the outcome of the
exchange: returns the decoded body on success, and an `{"error": ...}` dict
for each failure class — `"HTTP error: <status>"`, `"Request timed out"`, or
`str(e)`. It always returns; no exception escapes. -/
def send_soundcloud_request (outcome : HttpOutcome) : Json :=
  match outcome with
  | .success body => body
  | .httpStatusError code => Json.obj [("error", Json.str ("HTTP error: " ++ toString code))]
  | .timeout => Json.obj [("error", Json.str "Request timed out")]
  | .otherError msg => Json.obj [("error", Json.str msg)]

/-- `s` occurs as a contiguous substring of `hay` (character-list infix
check, used to state "the message contains the status code"). -/
def strContainsSub (hay needle : String) : Bool :=
  go hay.toList needle.toList
where
  isPre : List Char → List Char → Bool
    | [], _ => true
    | _ :: _, [] => false
    | n :: ns, h :: hs => n == h && isPre ns hs
  go (h n : List Char) : Bool :=
    match h with
    | [] => isPre n []
    | _ :: rest => isPre n h || go rest n

/-- `format_duration` (src/mcp/utils.py, lines 59-72): milliseconds to
`minutes:seconds`, via Python floor division and modulo (`//`, `%`, i.e.
`Int.fdiv`/`Int.fmod`), with the seconds zero-padded to two digits by
`f"{seconds:02d}"`. -/
def format_duration (milliseconds : Int) : String :=
  let seconds := Int.fdiv milliseconds 1000
  let minutes := Int.fdiv seconds 60
  let secondsRem := Int.fmod seconds 60
  toString minutes ++ ":" ++ pad2 secondsRem
where
  /-- Python `f"{n:02d}"`: left-pad with `0` to width 2. -/
  pad2 (n : Int) : String :=
    if 0 ≤ n ∧ n < 10 then "0" ++ toString n else toString n

/-- `format_track_info` (src/mcp/utils.py, lines 31-56). `none` models an
escaping exception (`user` present but not a dict, or `duration` present but
not an int — `.get` on a non-dict / `//` on a non-number raises). A falsy or
non-dict argument yields `"Invalid track data"`; otherwise the
Title/Artist/Duration lines with `"Unknown"`/0 defaults, a Genre line only
when `genre` is present and truthy, and a Link line when `permalink_url` is
present. -/
def format_track_info (track : Json) : Option String :=
  match track with
  | Json.obj kvs =>
    if kvs.isEmpty then some "Invalid track data"
    else do
      let title := match List.lookup "title" kvs with
        | some v => pyStr v
        | none => "Unknown"
      let artist ← match List.lookup "user" kvs with
        | some (Json.obj ukvs) =>
          some (match List.lookup "username" ukvs with
            | some v => pyStr v
            | none => "Unknown")
        | some _ => none
        | none => some "Unknown"
      let durMs ← match List.lookup "duration" kvs with
        | some (Json.num n) => some n
        | some (Json.bool b) => some (if b then 1 else 0)
        | some _ => none
        | none => some (0 : Int)
      let parts := ["Title: " ++ title, "Artist: " ++ artist,
                    "Duration: " ++ format_duration durMs]
      let parts := match List.lookup "genre" kvs with
        | some g => if truthy g then parts ++ ["Genre: " ++ pyStr g] else parts
        | none => parts
      let parts := match List.lookup "permalink_url" kvs with
        | some u => parts ++ ["Link: " ++ pyStr u]
        | none => parts
      some (String.intercalate "\n" parts)
  | _ => some "Invalid track data"

/-- The state of `soundcloud_token.json` as seen by `get_access_token`:
missing (`FileNotFoundError`), unparseable (`json.JSONDecodeError`), or
parsed to a JSON object. (A file whose JSON is not an object would raise an
uncaught `AttributeError` in the source and is outside this model.) -/
inductive TokenFile where
  | missing : TokenFile
  | badJson : TokenFile
  | parsed : List (String × Json) → TokenFile

/-- `get_access_token` (src/mcp/utils.py, lines 10-28): the
`SOUNDCLOUD_ACCESS_TOKEN` environment variable if truthy, otherwise
`token_data.get("access_token")` from `soundcloud_token.json`
(`None`/`Json.null`-like results included), `none` when the file is missing
or undecodable or the key absent. -/
def get_access_token (env : Option String) (file : TokenFile) : Option Json :=
  match env with
  | some t => if t != "" then some (Json.str t) else fileToken file
  | none => fileToken file
where
  fileToken : TokenFile → Option Json
    | .missing => none
    | .badJson => none
    | .parsed kvs => List.lookup "access_token" kvs

namespace server

/-- The `BPM` pydantic model of src/mcp/server.py. -/
structure BPM where
  min_bpm : Int
  max_bpm : Int

/-- The `Duration` pydantic model of src/mcp/server.py (seconds). -/
structure Duration where
  min_duration : Int
  max_duration : Int

/-- The `CreatedAt` pydantic model of src/mcp/server.py (date strings). -/
structure CreatedAt where
  min_created_at : String
  max_created_at : String

end server

/-- The arguments of the `search_tracks` tool exposed by the MCP server,
with the source's defaults (`None` everywhere, `limit=10`,
`format_results=True`). -/
structure ToolArgs where
  query : Option String := none
  genres : Option (List String) := none
  tags : Option (List String) := none
  bpm : Option server.BPM := none
  duration : Option server.Duration := none
  created_at : Option server.CreatedAt := none
  limit : Int := 10
  format_results : Bool := true

/-- The pydantic-model-to-dict conversion performed inside the tool
(src/mcp/server.py, lines 97-117): each present model becomes a
`{"from": ..., "to": ...}` dict for the client; pydantic model instances
are always truthy, so `if bpm:` fires exactly when the argument is not
`None`. -/
def to_client_request (a : ToolArgs) : SearchRequest :=
  { query := a.query
    genres := a.genres
    tags := a.tags
    bpm := a.bpm.map fun b => ⟨b.min_bpm, b.max_bpm⟩
    duration := a.duration.map fun d => ⟨d.min_duration, d.max_duration⟩
    created_at := a.created_at.map fun c => ⟨c.min_created_at, c.max_created_at⟩
    limit := a.limit }

/-- The `{"error": "No results found"}` value of src/mcp/server.py line 151. -/
def errNoResults : Json := Json.obj [("error", Json.str "No results found")]

/-- The error dict returned when the SoundCloud client was never built
(src/mcp/server.py, lines 92-95). -/
def errNotInit : Json :=
  Json.obj [("error",
    Json.str "SoundCloud client not initialized. Please set SOUNDCLOUD_ACCESS_TOKEN.")]

/-- The response post-processing of the `search_tracks` tool
(src/mcp/server.py, lines 131-151): an `"error"`-keyed dict is passed
through; otherwise `track_count = len(response.get("collection", []))` for a
dict response (0 for a non-dict); if `format_results` and at least one track,
the `{count, tracks, raw_data}` envelope with each track formatted by
`format_track_info`; otherwise `response or {"error": "No results found"}`
(Python `or`, i.e. the error dict exactly when the response is falsy).
`none` models an exception inside the `try` (raised by `len`, iteration or
`format_track_info`), which the bare `except` turns into a
`"Failed to search tracks: ..."` error dict whose message is not modelled. -/
def handle_response (response : Json) (format_results : Bool) : Option Json :=
  match response with
  | Json.obj kvs =>
    if (List.lookup "error" kvs).isSome then some response
    else do
      let coll := (List.lookup "collection" kvs).getD (Json.arr [])
      let track_count ← py_len coll
      if format_results && track_count > 0 then do
        let items ← py_iter coll
        let formatted ← items.mapM format_track_info
        some (Json.obj [("count", Json.num track_count),
                        ("tracks", Json.arr (formatted.map Json.str)),
                        ("raw_data", response)])
      else
        some (if truthy response then response else errNoResults)
  | _ => some (if truthy response then response else errNoResults)

/-- The `search_tracks` tool of src/mcp/server.py (lines 69-155). `client`
is the `soundcloud_client` captured at server construction (`none` when no
token was available); `net` is the network: the provider's decoded answer as
a function of the query parameters the client sends. The returned `Nat`
counts outbound network calls. With no client the tool returns the
initialization error immediately and the network is never invoked;
otherwise it performs exactly one call through
`SoundCloudClient.search_tracks` and post-processes the response. -/
def tool_search_tracks (client : Option Json)
    (net : List (String × Json) → Json) (args : ToolArgs) : Option Json × Nat :=
  match client with
  | none => (some errNotInit, 0)
  | some _ =>
    let response := net (search_tracks_params (to_client_request args))
    (handle_response response args.format_results, 1)

/-- The token selection of `create_server` (src/mcp/server.py, lines
128-144 of the module, `access_token or get_access_token()`), and the
construction `SoundCloudClient(user_access_token) if user_access_token else
None`: the resulting `soundcloud_client`'s token, `none` when the client is
not built. -/
def create_server_client (access_token : Option String) (env : Option String)
    (file : TokenFile) : Option Json :=
  let tok : Option Json :=
    match access_token with
    | some s => if s != "" then some (Json.str s) else get_access_token env file
    | none => get_access_token env file
  match tok with
  | some v => if truthy v then some v else none
  | none => none


/-- The length of a successfully `mapM`-ed list equals the input length. -/
theorem mapM_option_length {α β : Type} (f : α → Option β) :
    ∀ (l : List α) (fs : List β), List.mapM f l = some fs → fs.length = l.length := by
  intro l
  induction l with
  | nil =>
    intro fs h
    rw [List.mapM_nil] at h
    cases h
    rfl
  | cons x xs ih =>
    intro fs h
    rw [List.mapM_cons] at h
    cases hx : f x with
    | none => rw [hx] at h; simp at h
    | some b =>
      rw [hx] at h
      cases hxs : List.mapM f xs with
      | none => rw [hxs] at h; simp at h
      | some bs =>
        rw [hxs] at h
        simp at h
        subst h
        simp [ih bs hxs]

/-- C1: a `SearchRequest` with no filter set (query, genres, tags, bpm,
duration, created_at all absent) and the default limit 10 yields exactly
the two-entry parameter mapping `limit = 10`,
`linked_partitioning = "1"`, in that order, with no other key. -/
theorem c1_no_filters_params (req : SearchRequest)
    (hq : req.query = none) (hg : req.genres = none) (ht : req.tags = none)
    (hb : req.bpm = none) (hd : req.duration = none) (hc : req.created_at = none)
    (hl : req.limit = 10) :
    search_tracks_params req =
      [("limit", Json.num 10), ("linked_partitioning", Json.str "1")] := by
  obtain ⟨q, g, t, b, d, c, l⟩ := req
  simp only at hq hg ht hb hd hc hl
  subst hq; subst hg; subst ht; subst hb; subst hd; subst hc; subst hl
  rfl

/-- C1 witness: the all-default request. -/
theorem c1_witness :
    search_tracks_params {} =
      [("limit", Json.num 10), ("linked_partitioning", Json.str "1")] :=
  c1_no_filters_params {} rfl rfl rfl rfl rfl rfl rfl

/-- C2 counterexample: for a present but empty genre (resp. tag) list the
builder does emit the `genres` (resp. `tags`) key, valued `""` — the claim
says no such key is emitted for an empty list. -/
theorem c2_counterexample :
    (List.lookup "genres" (search_tracks_params { genres := some [] })).isSome = true ∧
    List.lookup "genres" (search_tracks_params { genres := some [] })
      = some (Json.str "") ∧
    (List.lookup "tags" (search_tracks_params { tags := some [] })).isSome = true ∧
    List.lookup "tags" (search_tracks_params { tags := some [] })
      = some (Json.str "") :=
  ⟨rfl, rfl, rfl, rfl⟩

/-- C2 amended: the `genres` (resp. `tags`) key is emitted exactly when the
genre (resp. tag) list is present — `is not None`, including the empty list,
for which the value is `""` — and its value is always the comma-join of the
list. -/
theorem c2_amended_join_keys (req : SearchRequest) :
    List.lookup "genres" (search_tracks_params req)
      = req.genres.map (fun gs => Json.str (String.intercalate "," gs)) ∧
    List.lookup "tags" (search_tracks_params req)
      = req.tags.map (fun ts => Json.str (String.intercalate "," ts)) := by
  obtain ⟨q, g, t, b, d, c, l⟩ := req
  cases q <;> cases g <;> cases t <;> cases b <;> cases d <;> cases c <;>
    exact ⟨rfl, rfl⟩

/-- C3: each range filter is flattened into its two `[from]`/`[to]` keys
exactly when present (the key's value is the corresponding bound), an absent
range emits neither key, and the request whose only filter is the BPM range
120-140 yields exactly `bpm[from]=120, bpm[to]=140, limit=10,
linked_partitioning="1"`. -/
theorem c3_range_filters (req : SearchRequest) :
    List.lookup "bpm[from]" (search_tracks_params req)
      = req.bpm.map (fun b => Json.num b.«from») ∧
    List.lookup "bpm[to]" (search_tracks_params req)
      = req.bpm.map (fun b => Json.num b.«to») ∧
    List.lookup "duration[from]" (search_tracks_params req)
      = req.duration.map (fun d => Json.num d.«from») ∧
    List.lookup "duration[to]" (search_tracks_params req)
      = req.duration.map (fun d => Json.num d.«to») ∧
    List.lookup "created_at[from]" (search_tracks_params req)
      = req.created_at.map (fun c => Json.str c.«from») ∧
    List.lookup "created_at[to]" (search_tracks_params req)
      = req.created_at.map (fun c => Json.str c.«to») ∧
    search_tracks_params { bpm := some ⟨120, 140⟩ } =
      [("bpm[from]", Json.num 120), ("bpm[to]", Json.num 140),
       ("limit", Json.num 10), ("linked_partitioning", Json.str "1")] := by
  obtain ⟨q, g, t, b, d, c, l⟩ := req
  cases q <;> cases g <;> cases t <;> cases b <;> cases d <;> cases c <;>
    exact ⟨rfl, rfl, rfl, rfl, rfl, rfl, rfl⟩

/-- The `"error"` message of an error dict, `none` when the value is not an
error dict with a string message. -/
def errMessage : Json → Option String
  | Json.obj kvs =>
    match List.lookup "error" kvs with
    | some (Json.str m) => some m
    | _ => none
  | _ => none

/-- C4: `_send_soundcloud_request` maps every outcome to a returned value
and never raises — a 2xx body is returned as decoded, an HTTP status error
becomes `{"error": "HTTP error: <code>"}` (so for a 401 the message contains
`"401"`), a timeout becomes `{"error": "Request timed out"}`, and any other
transport or decoding failure becomes `{"error": str(e)}` carrying the
underlying cause. -/
theorem c4_error_mapping (body : Json) (code : Nat) (msg : String) :
    send_soundcloud_request (HttpOutcome.success body) = body ∧
    send_soundcloud_request (HttpOutcome.httpStatusError code)
      = Json.obj [("error", Json.str ("HTTP error: " ++ toString code))] ∧
    send_soundcloud_request HttpOutcome.timeout
      = Json.obj [("error", Json.str "Request timed out")] ∧
    send_soundcloud_request (HttpOutcome.otherError msg)
      = Json.obj [("error", Json.str msg)] ∧
    (∃ m, errMessage (send_soundcloud_request (HttpOutcome.httpStatusError 401))
        = some m ∧ strContainsSub m "401" = true) :=
  ⟨rfl, rfl, rfl, rfl, "HTTP error: 401", rfl, by decide⟩

/-- C5 counterexample: `format_track_info` on the empty JSON object — a
falsy dict in Python — returns `"Invalid track data"`, not the defaulted
Title/Artist/Duration rendering the claim states. -/
theorem c5_counterexample :
    format_track_info (Json.obj []) = some "Invalid track data" ∧
    format_track_info (Json.obj [])
      ≠ some "Title: Unknown\nArtist: Unknown\nDuration: 0:00" :=
  ⟨rfl, by decide⟩

/-- C5 amended: `format_track_info` on the empty object returns
`"Invalid track data"` (still never failing); on every NON-empty JSON object
a missing title or missing user defaults to `"Unknown"`, a missing duration
defaults to 0 (displayed `"0:00"`), a present-but-falsy genre emits no genre
line, a present non-empty genre emits one, and `permalink_url` adds a link
line when present. -/
theorem c5_amended_defaults :
    (∀ kvs : List (String × Json), kvs ≠ [] →
      List.lookup "title" kvs = none → List.lookup "user" kvs = none →
      List.lookup "duration" kvs = none → List.lookup "genre" kvs = none →
      List.lookup "permalink_url" kvs = none →
      format_track_info (Json.obj kvs)
        = some "Title: Unknown\nArtist: Unknown\nDuration: 0:00") ∧
    (∀ kvs : List (String × Json), kvs ≠ [] →
      List.lookup "title" kvs = none → List.lookup "user" kvs = none →
      List.lookup "duration" kvs = none →
      List.lookup "genre" kvs = some (Json.str "") →
      List.lookup "permalink_url" kvs = none →
      format_track_info (Json.obj kvs)
        = some "Title: Unknown\nArtist: Unknown\nDuration: 0:00") ∧
    format_track_info (Json.obj [("genre", Json.str "House")])
      = some "Title: Unknown\nArtist: Unknown\nDuration: 0:00\nGenre: House" ∧
    format_track_info (Json.obj [("permalink_url", Json.str "https://sc/x")])
      = some "Title: Unknown\nArtist: Unknown\nDuration: 0:00\nLink: https://sc/x" ∧
    format_track_info (Json.obj []) = some "Invalid track data" := by
  refine ⟨?_, ?_, rfl, rfl, rfl⟩ <;>
    · intro kvs hne h1 h2 h3 h4 h5
      cases kvs with
      | nil => exact absurd rfl hne
      | cons p ps =>
        simp [format_track_info, h1, h2, h3, h4, h5, truthy]
        rfl

/-- C5 witness: a concrete non-empty object with none of the five keys. -/
theorem c5_witness :
    format_track_info (Json.obj [("id", Json.num 42)])
      = some "Title: Unknown\nArtist: Unknown\nDuration: 0:00" :=
  c5_amended_defaults.1 [("id", Json.num 42)] (by simp) rfl rfl rfl rfl rfl

/-- C6: when no access token is available at construction (none passed, none
in the environment, no token file) the server holds no client, and then
every invocation of the tool returns the initialization error with zero
outbound network calls, whatever the network would have answered. -/
theorem c6_no_token_no_network :
    create_server_client none none TokenFile.missing = none ∧
    (∀ (net : List (String × Json) → Json) (args : ToolArgs),
      tool_search_tracks none net args = (some errNotInit, 0)) :=
  ⟨rfl, fun _ _ => rfl⟩

/-- C8: `format_duration` renders 125000 ms as `"2:05"`, 59000 ms as
`"0:59"`, 0 ms as `"0:00"`, and for every non-negative millisecond count the
seconds component (the program's `seconds % 60`) lies in `[0, 60)` while the
rendering is `minutes:seconds` with the seconds zero-padded to two
digits. -/
theorem c8_format_duration :
    format_duration 125000 = "2:05" ∧
    format_duration 59000 = "0:59" ∧
    format_duration 0 = "0:00" ∧
    (∀ ms : Int, 0 ≤ ms →
      0 ≤ Int.fmod (Int.fdiv ms 1000) 60 ∧
      Int.fmod (Int.fdiv ms 1000) 60 < 60 ∧
      format_duration ms
        = toString (Int.fdiv (Int.fdiv ms 1000) 60) ++ ":"
            ++ format_duration.pad2 (Int.fmod (Int.fdiv ms 1000) 60)) :=
  ⟨rfl, rfl, rfl, fun ms _ =>
    ⟨Int.fmod_nonneg' _ (by decide), Int.fmod_lt_of_pos _ (by decide), rfl⟩⟩

/-- C8 witness: the bounds and rendering at 125000 ms. -/
theorem c8_witness :
    (0 : Int) ≤ 125000 ∧
    (0 ≤ Int.fmod (Int.fdiv 125000 1000) 60 ∧
     Int.fmod (Int.fdiv 125000 1000) 60 < 60 ∧
     format_duration 125000
       = toString (Int.fdiv (Int.fdiv 125000 1000) 60) ++ ":"
           ++ format_duration.pad2 (Int.fmod (Int.fdiv 125000 1000) 60)) :=
  ⟨by decide, c8_format_duration.2.2.2 125000 (by decide)⟩

/-- C9: evaluation of `get_access_token` at the two documented file shapes
with the environment variable unset — the `access_token` shape is read back,
but the `token` shape (the very shape `auth.py`'s `__main__` writes) yields
`None`, contradicting the claim; the environment variable path works. -/
theorem c9_token_file_keys :
    get_access_token none (TokenFile.parsed [("access_token", Json.str "tok123")])
      = some (Json.str "tok123") ∧
    get_access_token none (TokenFile.parsed [("token", Json.str "tok123")])
      = none ∧
    get_access_token (some "envtok") TokenFile.missing
      = some (Json.str "envtok") :=
  ⟨rfl, rfl, rfl⟩

/-- C10: with `format_results` true and a successful dict response holding
zero tracks (`collection` empty or absent), the tool returns the provider's
response unchanged — no envelope — and the empty (falsy) response instead
becomes `{"error": "No results found"}`. -/
theorem c10_zero_tracks_passthrough :
    (∀ kvs : List (String × Json), kvs ≠ [] →
      List.lookup "error" kvs = none →
      List.lookup "collection" kvs = some (Json.arr []) →
      handle_response (Json.obj kvs) true = some (Json.obj kvs)) ∧
    (∀ kvs : List (String × Json), kvs ≠ [] →
      List.lookup "error" kvs = none →
      List.lookup "collection" kvs = none →
      handle_response (Json.obj kvs) true = some (Json.obj kvs)) ∧
    handle_response (Json.obj []) true = some errNoResults := by
  refine ⟨?_, ?_, rfl⟩ <;>
    · intro kvs hne herr hcoll
      cases kvs with
      | nil => exact absurd rfl hne
      | cons p ps =>
        simp [handle_response, herr, hcoll, truthy, py_len]

/-- C10 witness: a response whose `collection` is the empty array. -/
theorem c10_witness :
    handle_response (Json.obj [("collection", Json.arr [])]) true
      = some (Json.obj [("collection", Json.arr [])]) :=
  c10_zero_tracks_passthrough.1 [("collection", Json.arr [])] (by simp) rfl rfl

/-- C7: with a client available, `format_results` true, and a successful
provider response whose `collection` holds `n ≥ 1` tracks each of which
formats without error, the tool performs one network call and returns the
envelope `{count: n, tracks: <formatted strings>, raw_data: <full
response>}` with `tracks` of the same length `n` as the collection. -/
theorem c7_formatted_envelope (tok : Json) (net : List (String × Json) → Json)
    (args : ToolArgs) (kvs : List (String × Json)) (tracks : List Json)
    (fs : List String)
    (hfr : args.format_results = true)
    (hresp : net (search_tracks_params (to_client_request args)) = Json.obj kvs)
    (herr : List.lookup "error" kvs = none)
    (hcoll : List.lookup "collection" kvs = some (Json.arr tracks))
    (hn : 1 ≤ tracks.length)
    (hfmt : List.mapM format_track_info tracks = some fs) :
    tool_search_tracks (some tok) net args =
      (some (Json.obj [("count", Json.num tracks.length),
                       ("tracks", Json.arr (fs.map Json.str)),
                       ("raw_data", Json.obj kvs)]), 1) ∧
    fs.length = tracks.length := by
  have hpos : (0 : Int) < tracks.length := by exact_mod_cast hn
  constructor
  · simp only [tool_search_tracks, hresp, hfr]
    simp [handle_response, herr, hcoll, py_len, py_iter, hpos]
    rw [show List.mapM.loop format_track_info tracks [] = some fs from hfmt]
    rfl
  · exact mapM_option_length format_track_info tracks fs hfmt

/-- C7 witness: a two-track response formatted through the default
arguments. -/
theorem c7_witness :
    tool_search_tracks (some (Json.str "tok"))
      (fun _ => Json.obj [("collection", Json.arr
        [Json.obj [("title", Json.str "A")],
         Json.obj [("title", Json.str "B"),
                   ("user", Json.obj [("username", Json.str "DJ")]),
                   ("duration", Json.num 125000)]])]) {} =
      (some (Json.obj [("count", Json.num 2),
                       ("tracks", Json.arr
                         [Json.str "Title: A\nArtist: Unknown\nDuration: 0:00",
                          Json.str "Title: B\nArtist: DJ\nDuration: 2:05"]),
                       ("raw_data", Json.obj [("collection", Json.arr
                         [Json.obj [("title", Json.str "A")],
                          Json.obj [("title", Json.str "B"),
                                    ("user", Json.obj [("username", Json.str "DJ")]),
                                    ("duration", Json.num 125000)]])])]), 1) ∧
    ([ "Title: A\nArtist: Unknown\nDuration: 0:00",
       "Title: B\nArtist: DJ\nDuration: 2:05" ] : List String).length =
      ([Json.obj [("title", Json.str "A")],
        Json.obj [("title", Json.str "B"),
                  ("user", Json.obj [("username", Json.str "DJ")]),
                  ("duration", Json.num 125000)]] : List Json).length :=
  c7_formatted_envelope (Json.str "tok")
    (fun _ => Json.obj [("collection", Json.arr
      [Json.obj [("title", Json.str "A")],
       Json.obj [("title", Json.str "B"),
                 ("user", Json.obj [("username", Json.str "DJ")]),
                 ("duration", Json.num 125000)]])])
    {}
    [("collection", Json.arr
      [Json.obj [("title", Json.str "A")],
       Json.obj [("title", Json.str "B"),
                 ("user", Json.obj [("username", Json.str "DJ")]),
                 ("duration", Json.num 125000)]])]
    [Json.obj [("title", Json.str "A")],
     Json.obj [("title", Json.str "B"),
               ("user", Json.obj [("username", Json.str "DJ")]),
               ("duration", Json.num 125000)]]
    ["Title: A\nArtist: Unknown\nDuration: 0:00",
     "Title: B\nArtist: DJ\nDuration: 2:05"]
    rfl rfl rfl rfl (by decide) rfl
